import Mathlib

/-!
Verification of the node-group readiness controller of `eks-infra`
(`iac-modules/cluster-infra/v1.33-v1/node_groups/node_groups.py`).

The controller is embedded shallowly:

* the AWS describe API and the Kubernetes list-nodes API become abstract
  environments (`AsgEnv`, `K8sEnv`) indexed by the poll number;
* wall-clock time is an explicit natural number advanced by the poll
  interval at every sleep, with the loop guarded by `t < deadline`;
* the poll loops are written with an explicit fuel argument so that they
  are structurally recursive; exhausting the fuel yields the same timeout
  error that the code raises once the deadline has passed, and the
  top-level wrappers supply enough fuel for every positive poll interval;
* exceptions of the Python code become `Except` errors carrying the
  exception message;
* the temporary CA-certificate file becomes an explicit list of paths
  threaded through `wait_for_kubernetes_nodes_ready`.
-/

/-- One instance record of a `describe_auto_scaling_groups` response
(`LifecycleState` / `HealthStatus` fields of the boto3 payload). -/
structure AsgInstance where
  instanceId : String
  lifecycleState : String
  healthStatus : String
deriving DecidableEq, Repr

/-- The per-instance health test of `_wait_for_asg_ready`: lifecycle state
`"InService"` and health status `"Healthy"`, compared by string equality. -/
def instanceHealthy (i : AsgInstance) : Bool :=
  i.lifecycleState == "InService" && i.healthStatus == "Healthy"

/-- `sum(1 for instance in instances if ...)` of `_wait_for_asg_ready`. -/
def healthyCount (instances : List AsgInstance) : Nat :=
  instances.countP instanceHealthy

/-- One Auto Scaling Group of a describe response (`DesiredCapacity`,
`Instances`). -/
structure AsgGroup where
  desiredCapacity : Nat
  instances : List AsgInstance
deriving DecidableEq, Repr

/-- Outcome of one `describe_auto_scaling_groups` call: a `ClientError`,
or a (possibly empty) list of groups. -/
inductive DescribeOutcome where
  | clientError (message : String)
  | ok (groups : List AsgGroup)
deriving DecidableEq, Repr

/-- The AWS autoscaling API as seen by the controller: the outcome of the
`idx`-th describe call. -/
structure AsgEnv where
  describe : Nat → DescribeOutcome

/-- One entry of a node's `status.conditions` list. -/
structure NodeCondition where
  type : String
  status : String
deriving DecidableEq, Repr

/-- One node of a `list_node` response (only its conditions matter). -/
structure K8sNode where
  conditions : List NodeCondition
deriving DecidableEq, Repr

/-- The inner `for condition in conditions: ... break` of
`_wait_for_kubernetes_nodes_ready`: the node counts once as ready when
some condition has type `"Ready"` and status `"True"`. -/
def nodeReadyFlag (n : K8sNode) : Bool :=
  n.conditions.any (fun c => c.type == "Ready" && c.status == "True")

/-- The `ready_nodes` accumulation loop of
`_wait_for_kubernetes_nodes_ready`, kept in its source shape (a fold over
the listed nodes adding one per ready node). -/
def countReadySrc (items : List K8sNode) : Nat :=
  items.foldl (fun acc n => if nodeReadyFlag n then acc + 1 else acc) 0

/-- Outcome of one `core_api.list_node` call: an `ApiException` with an
HTTP status, some other transport exception, or a node list. -/
inductive ListNodesOutcome where
  | apiError (httpStatus : Nat)
  | otherError (message : String)
  | nodes (items : List K8sNode)
deriving DecidableEq, Repr

/-- The ambient cloud/Kubernetes world of the sub-check: whether
credentials resolve at the `idx`-th iteration, the UTF-8 bytes of the
presigned URL the signer produces, the node-list API (taking the label
selector string that is passed to it), and the temporary file name that
`tempfile.NamedTemporaryFile` hands out. -/
structure K8sEnv where
  credentials : Nat → Option Unit
  signedUrl : Nat → List Nat
  listNodes : Nat → String → ListNodesOutcome
  tmpName : String

/-- The URL-safe base64 alphabet used by `base64.urlsafe_b64encode`. -/
def b64Alphabet : List Char :=
  "ABCDEFGHIJKLMNOPQRSTUVWXYZabcdefghijklmnopqrstuvwxyz0123456789-_".toList

/-- The alphabet character for a 6-bit index. -/
def b64Char (n : Nat) : Char :=
  b64Alphabet.getD n 'A'

/-- `base64.urlsafe_b64encode` over a byte list: 3-byte chunks become four
alphabet characters; a trailing 1- or 2-byte chunk is completed with `'='`
padding. -/
def urlsafeB64Encode : List Nat → List Char
  | [] => []
  | [b0] => [b64Char (b0 / 4), b64Char (b0 % 4 * 16), '=', '=']
  | [b0, b1] => [b64Char (b0 / 4), b64Char (b0 % 4 * 16 + b1 / 16), b64Char (b1 % 16 * 4), '=']
  | b0 :: b1 :: b2 :: rest =>
      b64Char (b0 / 4) :: b64Char (b0 % 4 * 16 + b1 / 16) ::
      b64Char (b1 % 16 * 4 + b2 / 64) :: b64Char (b2 % 64) :: urlsafeB64Encode rest

/-- `.rstrip("=")`: drop every trailing `'='`. -/
def rstripEq (cs : List Char) : List Char :=
  ((cs.reverse).dropWhile (fun c => c == '=')).reverse

/-- `_generate_bearer_token`: fail when no credentials resolve, otherwise
return `"k8s-aws-v1."` followed by the unpadded URL-safe base64 encoding
of the presigned URL's bytes. -/
def generate_bearer_token (credentials : Option Unit) (signedUrlBytes : List Nat) :
    Except String String :=
  match credentials with
  | none => .error "Unable to find AWS credentials for Kubernetes readiness check."
  | some _ => .ok ("k8s-aws-v1." ++ String.mk (rstripEq (urlsafeB64Encode signedUrlBytes)))

/-- The dictionary returned by `_wait_for_kubernetes_nodes_ready` (also the
shape of the `status: failed` fallback built in `_wait_for_asg_ready`). -/
structure K8sResult where
  node_group : String
  ready_nodes : Nat
  expected_ready_nodes : Nat
  status : String
deriving DecidableEq, Repr

/-- An exception escaping `_wait_for_kubernetes_nodes_ready`: its own
timeout, or some other uncaught exception (e.g. missing credentials while
minting a token). -/
inductive K8sError where
  | timeout (message : String)
  | exception (message : String)
deriving DecidableEq, Repr

/-- The message of the sub-check's timeout exception: it names the capped
budget, the node group, and the last seen per-call error (`'none'` when no
call failed). -/
def k8sTimeoutMessage (kubernetesTimeout : Nat) (label : String)
    (lastError : Option String) : String :=
  "Timed out after " ++ toString kubernetesTimeout ++
  "s waiting for Kubernetes nodes in group " ++ label ++
  " to become Ready. Last seen error: " ++ lastError.getD "none"

/-- The polling loop of `_wait_for_kubernetes_nodes_ready`. Each iteration
mints a token (an uncaught failure propagates), lists nodes with selector
`"NodeGroup=" ++ label` (per-call errors update `lastError`, sleep, and
retry), and returns the ready record once enough nodes are ready. The
loop ends with the timeout exception when `t` reaches the deadline (or
when the fuel, supplied by the wrapper to outlast the deadline, runs
out). -/
def k8sLoop (env : K8sEnv) (label : String)
    (desiredCapacity pollInterval kubernetesTimeout deadline : Nat) :
    Nat → Option String → Nat → Nat → Except K8sError K8sResult
  | 0, lastError, _, _ =>
      .error (.timeout (k8sTimeoutMessage kubernetesTimeout label lastError))
  | fuel + 1, lastError, idx, t =>
      if t < deadline then
        match generate_bearer_token (env.credentials idx) (env.signedUrl idx) with
        | .error msg => .error (.exception msg)
        | .ok _token =>
          match env.listNodes idx ("NodeGroup=" ++ label) with
          | .apiError httpStatus =>
              k8sLoop env label desiredCapacity pollInterval kubernetesTimeout deadline
                fuel (some ("HTTP " ++ toString httpStatus)) (idx + 1) (t + pollInterval)
          | .otherError msg =>
              k8sLoop env label desiredCapacity pollInterval kubernetesTimeout deadline
                fuel (some msg) (idx + 1) (t + pollInterval)
          | .nodes items =>
              if desiredCapacity ≤ countReadySrc items then
                .ok ⟨label, countReadySrc items, desiredCapacity, "ready"⟩
              else
                k8sLoop env label desiredCapacity pollInterval kubernetesTimeout deadline
                  fuel lastError (idx + 1) (t + pollInterval)
      else
        .error (.timeout (k8sTimeoutMessage kubernetesTimeout label lastError))

/-- The `finally` block: remove the CA file when the path is truthy and the
file exists (the swallowed `OSError` branch is not modelled: removal
succeeds). -/
def removeIfExists (fs : List String) (p : String) : List String :=
  if p ≠ "" ∧ p ∈ fs then fs.erase p else fs

/-- `_wait_for_kubernetes_nodes_ready`: cap the budget at
`min timeoutSeconds 300`, write the CA file, run the polling loop, and
delete the CA file on every exit path. Returns the loop's outcome
together with the file system after the `finally` block. -/
def wait_for_kubernetes_nodes_ready (env : K8sEnv) (fs : List String) (label : String)
    (desiredCapacity timeoutSeconds pollInterval startTime : Nat) :
    Except K8sError K8sResult × List String :=
  let kubernetesTimeout := min timeoutSeconds 300
  let caFilePath := env.tmpName
  let fs1 := fs ++ [caFilePath]
  let res := k8sLoop env label desiredCapacity pollInterval kubernetesTimeout
    (startTime + kubernetesTimeout) (kubernetesTimeout + 1) none 0 startTime
  (res, removeIfExists fs1 caFilePath)

/-- The optional cluster context handed to `WaitForAsgReady`
(`cluster_name`, `cluster_endpoint`, `cluster_ca_data`,
`node_group_label`). -/
structure ClusterCtx where
  cluster_name : Option String
  cluster_endpoint : Option String
  cluster_ca_data : Option String
  node_group_label : Option String
deriving DecidableEq, Repr

/-- Python truthiness of an optional string: present and non-empty. -/
def truthyOpt : Option String → Bool
  | none => false
  | some s => !(s == "")

/-- The `cluster_name and cluster_endpoint and cluster_ca_data and
node_group_label` conjunct of the readiness branch. -/
def ctxComplete (c : ClusterCtx) : Bool :=
  truthyOpt c.cluster_name && truthyOpt c.cluster_endpoint &&
  truthyOpt c.cluster_ca_data && truthyOpt c.node_group_label

/-- The `kubernetes` field of the result: when the group has positive
desired capacity and the full cluster context is present, run the
sub-check (abstracted as `k8sCheck` at the current poll index) and map any
exception to the `status: "failed"` record; otherwise the field is
absent. -/
def asgK8sField (k8sCheck : Nat → Except K8sError K8sResult) (ctx : ClusterCtx)
    (desiredCapacity idx : Nat) : Option K8sResult :=
  if 0 < desiredCapacity ∧ ctxComplete ctx = true then
    match k8sCheck idx with
    | .ok r => some r
    | .error _ => some ⟨ctx.node_group_label.getD "", 0, desiredCapacity, "failed"⟩
  else
    none

/-- The dictionary returned by `_wait_for_asg_ready`. -/
structure AsgResult where
  asg_name : String
  desired_capacity : Nat
  healthy_instances : Nat
  kubernetes : Option K8sResult
deriving DecidableEq, Repr

/-- The message of the outer timeout exception: it names the configured
budget (now elapsed) and the group. -/
def asgTimeoutMessage (timeoutSeconds : Nat) (asgName : String) : String :=
  "Timed out after " ++ toString timeoutSeconds ++
  "s waiting for Auto Scaling Group " ++ asgName ++ " to become healthy."

/-- The polling loop of `_wait_for_asg_ready`. A describe `ClientError` or
an empty group list is logged, slept over, and retried; otherwise the
head group's snapshot is judged healthy when `desiredCapacity = 0` or
`healthyCount ≥ desiredCapacity`, in which case the result (with the
optional Kubernetes field) is returned; an unhealthy snapshot sleeps and
retries. The loop ends with the timeout exception when `t` reaches the
deadline (or when the fuel, supplied by the wrapper to outlast the
deadline, runs out). -/
def asgLoop (env : AsgEnv) (k8sCheck : Nat → Except K8sError K8sResult) (asgName : String)
    (ctx : ClusterCtx) (timeoutSeconds pollInterval deadline : Nat) :
    Nat → Nat → Nat → Except String AsgResult
  | 0, _, _ => .error (asgTimeoutMessage timeoutSeconds asgName)
  | fuel + 1, idx, t =>
      if t < deadline then
        match env.describe idx with
        | .clientError _ =>
            asgLoop env k8sCheck asgName ctx timeoutSeconds pollInterval deadline
              fuel (idx + 1) (t + pollInterval)
        | .ok [] =>
            asgLoop env k8sCheck asgName ctx timeoutSeconds pollInterval deadline
              fuel (idx + 1) (t + pollInterval)
        | .ok (group :: _) =>
            if group.desiredCapacity = 0 ∨ group.desiredCapacity ≤ healthyCount group.instances then
              .ok ⟨asgName, group.desiredCapacity, healthyCount group.instances,
                   asgK8sField k8sCheck ctx group.desiredCapacity idx⟩
            else
              asgLoop env k8sCheck asgName ctx timeoutSeconds pollInterval deadline
                fuel (idx + 1) (t + pollInterval)
      else
        .error (asgTimeoutMessage timeoutSeconds asgName)

/-- `_wait_for_asg_ready`: in dry-run mode return the zero-valued record
without touching the environment; otherwise run the polling loop from
`startTime` with deadline `startTime + timeoutSeconds`. -/
def wait_for_asg_ready (dryRun : Bool) (env : AsgEnv)
    (k8sCheck : Nat → Except K8sError K8sResult) (asgName : String) (ctx : ClusterCtx)
    (timeoutSeconds pollInterval startTime : Nat) : Except String AsgResult :=
  if dryRun then
    .ok ⟨asgName, 0, 0, none⟩
  else
    asgLoop env k8sCheck asgName ctx timeoutSeconds pollInterval
      (startTime + timeoutSeconds) (timeoutSeconds + 1) 0 startTime

/-- The per-group configuration bit read by `await_node_groups_ready`
(`config.get("await", False)`). -/
structure NodeGroupConfig where
  await : Bool
deriving DecidableEq, Repr

/-- `awaited_groups`: the names of the groups whose configuration opts into
waiting. -/
def awaitedGroups (cfg : List (String × NodeGroupConfig)) : List String :=
  (cfg.filter (fun p => p.2.await)).map (fun p => p.1)

/-- A Pulumi output of `await_node_groups_ready`: either an immediately
resolved boolean (`Output.from_input`) or a boolean produced after every
named controller's ready signal resolves (`Output.all(...).apply`). -/
inductive AggOutput where
  | immediate (value : Bool)
  | afterAll (deps : List String) (value : Bool)
deriving DecidableEq, Repr

/-- `await_node_groups_ready`: with no opted-in group, or in dry-run mode,
or with no available readiness check, resolve `True` immediately;
otherwise wait on the ready signals of the opted-in groups that have a
readiness check and then yield `True`. -/
def await_node_groups_ready (dryRun : Bool) (cfg : List (String × NodeGroupConfig))
    (checkNames : List String) : AggOutput :=
  if (awaitedGroups cfg).isEmpty then
    .immediate true
  else if dryRun then
    .immediate true
  else if ((awaitedGroups cfg).filter (fun n => checkNames.contains n)).isEmpty then
    .immediate true
  else
    .afterAll ((awaitedGroups cfg).filter (fun n => checkNames.contains n)) true

/-- Resolution of an aggregate output given which controllers' ready
signals have resolved: an immediate output always resolves; an `afterAll`
output resolves once every dependency has. -/
def resolvesTo (o : AggOutput) (ready : String → Bool) : Option Bool :=
  match o with
  | .immediate v => some v
  | .afterAll deps v => if deps.all ready then some v else none

/-- `self.ready = readiness_details.apply(lambda _: True)`: the controller's
ready signal maps whatever details resolve to the constant `True`. -/
def controllerReady (details : Option AsgResult) : Option Bool :=
  details.map (fun _ => true)

theorem healthyCount_eq_filter_length (l : List AsgInstance) :
    healthyCount l = (l.filter instanceHealthy).length := by
  simp [healthyCount, List.countP_eq_length_filter]

/-- C1: on every poll snapshot with a successful, non-empty describe
response, the loop returns the ready record exactly when
`desiredCapacity = 0` or `healthyCount ≥ desiredCapacity` (otherwise it
retries); `healthyCount` counts the instances of that same snapshot whose
lifecycle state is the verbatim string `"InService"` and whose health
status is the verbatim string `"Healthy"`; and with `desiredCapacity = 0`
the Kubernetes field is skipped, so the very first successful poll
returns the ready record regardless of the instance list. -/
theorem asg_health_judgment (env : AsgEnv) (k8sCheck : Nat → Except K8sError K8sResult)
    (asgName : String) (ctx : ClusterCtx)
    (timeoutSeconds pollInterval deadline fuel idx t : Nat)
    (g : AsgGroup) (rest : List AsgGroup) (inst : AsgInstance)
    (ht : t < deadline) (hdesc : env.describe idx = .ok (g :: rest)) :
    (asgLoop env k8sCheck asgName ctx timeoutSeconds pollInterval deadline (fuel + 1) idx t =
      if g.desiredCapacity = 0 ∨ g.desiredCapacity ≤ healthyCount g.instances then
        .ok ⟨asgName, g.desiredCapacity, healthyCount g.instances,
             asgK8sField k8sCheck ctx g.desiredCapacity idx⟩
      else
        asgLoop env k8sCheck asgName ctx timeoutSeconds pollInterval deadline
          fuel (idx + 1) (t + pollInterval))
    ∧ healthyCount g.instances = (g.instances.filter instanceHealthy).length
    ∧ (instanceHealthy inst = true ↔
        (inst.lifecycleState = "InService" ∧ inst.healthStatus = "Healthy"))
    ∧ asgK8sField k8sCheck ctx 0 idx = none := by
  refine ⟨?_, healthyCount_eq_filter_length _, ?_, ?_⟩
  · simp only [asgLoop]
    rw [if_pos ht, hdesc]
  · simp [instanceHealthy]
  · simp [asgK8sField]

theorem asg_health_judgment_witness :
    asgLoop ⟨fun _ => .ok [⟨0, [⟨"i-1", "Pending", "Healthy"⟩]⟩]⟩
      (fun _ => .error (.exception "boom")) "asg" ⟨some "c", some "e", some "ca", some "g"⟩
      900 15 900 60 0 0 = .ok ⟨"asg", 0, 0, none⟩ := by
  have h := asg_health_judgment ⟨fun _ => .ok [⟨0, [⟨"i-1", "Pending", "Healthy"⟩]⟩]⟩
    (fun _ => .error (.exception "boom")) "asg" ⟨some "c", some "e", some "ca", some "g"⟩
    900 15 900 59 0 0 ⟨0, [⟨"i-1", "Pending", "Healthy"⟩]⟩ []
    ⟨"i-1", "InService", "Healthy"⟩ (by decide) rfl
  rw [h.1]
  rfl

/-- C2: when the Kubernetes sub-check raises any exception at a healthy
snapshot with positive desired capacity and a complete cluster context,
the loop still returns the ready record, whose `kubernetes` field is the
record `{node_group := label, ready_nodes := 0, expected_ready_nodes :=
desiredCapacity, status := "failed"}`; the inner failure is not
propagated. -/
theorem asg_k8s_failure_swallowed (env : AsgEnv)
    (k8sCheck : Nat → Except K8sError K8sResult) (asgName : String) (ctx : ClusterCtx)
    (timeoutSeconds pollInterval deadline fuel idx t : Nat)
    (g : AsgGroup) (rest : List AsgGroup) (e : K8sError) (lbl : String)
    (ht : t < deadline) (hdesc : env.describe idx = .ok (g :: rest))
    (hcap : 0 < g.desiredCapacity)
    (hhealthy : g.desiredCapacity ≤ healthyCount g.instances)
    (hctx : ctxComplete ctx = true) (hlbl : ctx.node_group_label = some lbl)
    (hk : k8sCheck idx = .error e) :
    asgLoop env k8sCheck asgName ctx timeoutSeconds pollInterval deadline (fuel + 1) idx t =
      .ok ⟨asgName, g.desiredCapacity, healthyCount g.instances,
           some ⟨lbl, 0, g.desiredCapacity, "failed"⟩⟩ := by
  have h1 : asgK8sField k8sCheck ctx g.desiredCapacity idx =
      some ⟨lbl, 0, g.desiredCapacity, "failed"⟩ := by
    simp [asgK8sField, hcap, hctx, hk, hlbl]
  simp only [asgLoop]
  rw [if_pos ht, hdesc]
  simp only [if_pos (Or.inr hhealthy), h1]

theorem asg_k8s_failure_swallowed_witness :
    asgLoop ⟨fun _ => .ok [⟨1, [⟨"i-1", "InService", "Healthy"⟩]⟩]⟩
      (fun _ => .error (.exception "Unable to find AWS credentials for Kubernetes readiness check."))
      "asg" ⟨some "c", some "e", some "ca", some "gpu"⟩ 900 15 900 60 0 0 =
      .ok ⟨"asg", 1, 1, some ⟨"gpu", 0, 1, "failed"⟩⟩ :=
  asg_k8s_failure_swallowed ⟨fun _ => .ok [⟨1, [⟨"i-1", "InService", "Healthy"⟩]⟩]⟩
    (fun _ => .error (.exception "Unable to find AWS credentials for Kubernetes readiness check."))
    "asg" ⟨some "c", some "e", some "ca", some "gpu"⟩ 900 15 900 59 0 0
    ⟨1, [⟨"i-1", "InService", "Healthy"⟩]⟩ []
    (.exception "Unable to find AWS credentials for Kubernetes readiness check.") "gpu"
    (by decide) rfl (by decide) (by decide) (by decide) rfl rfl

theorem b64Char_mem (n : Nat) : b64Char n ∈ b64Alphabet := by
  by_cases h : n < b64Alphabet.length
  · rw [b64Char, List.getD_eq_getElem b64Alphabet 'A' h]
    exact List.getElem_mem h
  · rw [b64Char, List.getD_eq_default]
    · decide
    · omega

theorem urlsafeB64Encode_shape (bs : List Nat) :
    ∃ pre pad, urlsafeB64Encode bs = pre ++ pad ∧ (∀ c ∈ pre, c ∈ b64Alphabet) ∧
      (pad = [] ∨ pad = ['='] ∨ pad = ['=', '=']) := by
  induction bs using urlsafeB64Encode.induct with
  | case1 =>
      exact ⟨[], [], rfl, by simp, Or.inl rfl⟩
  | case2 b0 =>
      refine ⟨[b64Char (b0 / 4), b64Char (b0 % 4 * 16)], ['=', '='], rfl, ?_, Or.inr (Or.inr rfl)⟩
      intro c hc
      simp only [List.mem_cons, List.not_mem_nil, or_false] at hc
      rcases hc with rfl | rfl
      · exact b64Char_mem _
      · exact b64Char_mem _
  | case3 b0 b1 =>
      refine ⟨[b64Char (b0 / 4), b64Char (b0 % 4 * 16 + b1 / 16), b64Char (b1 % 16 * 4)],
        ['='], rfl, ?_, Or.inr (Or.inl rfl)⟩
      intro c hc
      simp only [List.mem_cons, List.not_mem_nil, or_false] at hc
      rcases hc with rfl | rfl | rfl
      · exact b64Char_mem _
      · exact b64Char_mem _
      · exact b64Char_mem _
  | case4 b0 b1 b2 rest ih =>
      obtain ⟨pre, pad, heq, hpre, hpad⟩ := ih
      refine ⟨b64Char (b0 / 4) :: b64Char (b0 % 4 * 16 + b1 / 16) ::
        b64Char (b1 % 16 * 4 + b2 / 64) :: b64Char (b2 % 64) :: pre, pad, ?_, ?_, hpad⟩
      · simp [urlsafeB64Encode, heq]
      · intro c hc
        simp only [List.mem_cons] at hc
        rcases hc with rfl | rfl | rfl | rfl | hc
        · exact b64Char_mem _
        · exact b64Char_mem _
        · exact b64Char_mem _
        · exact b64Char_mem _
        · exact hpre c hc

theorem dropWhile_append_of_all {α : Type} (p : α → Bool) (l1 l2 : List α)
    (h : ∀ c ∈ l1, p c = true) :
    (l1 ++ l2).dropWhile p = l2.dropWhile p := by
  induction l1 with
  | nil => rfl
  | cons a l ih =>
      rw [List.cons_append, List.dropWhile_cons]
      simp only [h a (List.mem_cons_self a l), if_true]
      exact ih (fun c hc => h c (List.mem_cons_of_mem a hc))

theorem rstripEq_append_pad (pre pad : List Char)
    (hpre : ∀ c ∈ pre, ¬ c = '=') (hpad : ∀ c ∈ pad, c = '=') :
    rstripEq (pre ++ pad) = pre := by
  unfold rstripEq
  rw [List.reverse_append]
  rw [dropWhile_append_of_all _ _ _ (by
    intro c hc
    rw [List.mem_reverse] at hc
    simp [hpad c hc])]
  cases hrev : pre.reverse with
  | nil =>
      have : pre = [] := by simpa using congrArg List.reverse hrev
      simp [this]
  | cons a tail =>
      have ha : a ∈ pre := by
        rw [← List.mem_reverse, hrev]
        simp
      rw [List.dropWhile_cons]
      have : (a == '=') = false := by
        simpa using hpre a ha
      rw [this]
      simp only [Bool.false_eq_true, if_false]
      rw [← hrev, List.reverse_reverse]

theorem rstrip_encode_mem (bs : List Nat) :
    ∀ c ∈ rstripEq (urlsafeB64Encode bs), c ∈ b64Alphabet := by
  obtain ⟨pre, pad, heq, hpre, hpad⟩ := urlsafeB64Encode_shape bs
  have hpre' : ∀ c ∈ pre, ¬ c = '=' := by
    intro c hc hc'
    subst hc'
    have := hpre _ hc
    revert this
    decide
  have hpad' : ∀ c ∈ pad, c = '=' := by
    intro c hc
    rcases hpad with h | h | h <;> subst h <;>
      simp only [List.mem_singleton, List.mem_cons, List.not_mem_nil, or_false] at hc
    · exact hc
    · rcases hc with rfl | rfl <;> rfl
  rw [heq, rstripEq_append_pad pre pad hpre' hpad']
  exact hpre

/-- C3: every token returned by `_generate_bearer_token` is the literal
`"k8s-aws-v1."` followed by the URL-safe base64 encoding of the presigned
URL bytes with all trailing `'='` padding removed; consequently it starts
with `"k8s-aws-v1."` and contains no `'='` character. -/
theorem bearer_token_format (credentials : Option Unit) (bs : List Nat) (tok : String)
    (h : generate_bearer_token credentials bs = .ok tok) :
    tok = "k8s-aws-v1." ++ String.mk (rstripEq (urlsafeB64Encode bs)) ∧
    tok.data = "k8s-aws-v1.".data ++ rstripEq (urlsafeB64Encode bs) ∧
    '=' ∉ tok.data := by
  cases credentials with
  | none => simp [generate_bearer_token] at h
  | some u =>
    simp only [generate_bearer_token, Except.ok.injEq] at h
    subst h
    refine ⟨rfl, rfl, ?_⟩
    intro hc
    rcases List.mem_append.mp hc with h1 | h1
    · revert h1
      decide
    · exact absurd (rstrip_encode_mem bs '=' h1) (by decide)

theorem bearer_token_format_witness :
    "k8s-aws-v1.aHR0cHM" =
      "k8s-aws-v1." ++ String.mk (rstripEq (urlsafeB64Encode [104, 116, 116, 112, 115])) ∧
    ("k8s-aws-v1.aHR0cHM" : String).data =
      "k8s-aws-v1.".data ++ rstripEq (urlsafeB64Encode [104, 116, 116, 112, 115]) ∧
    '=' ∉ ("k8s-aws-v1.aHR0cHM" : String).data :=
  bearer_token_format (some ()) [104, 116, 116, 112, 115] "k8s-aws-v1.aHR0cHM" rfl

theorem asgLoop_error_message (env : AsgEnv) (k8sCheck : Nat → Except K8sError K8sResult)
    (asgName : String) (ctx : ClusterCtx) (timeoutSeconds pollInterval deadline : Nat) :
    ∀ (fuel idx t : Nat) (m : String),
      asgLoop env k8sCheck asgName ctx timeoutSeconds pollInterval deadline fuel idx t =
        .error m →
      m = asgTimeoutMessage timeoutSeconds asgName := by
  intro fuel
  induction fuel with
  | zero =>
      intro idx t m h
      simp only [asgLoop] at h
      injection h with h2
      exact h2.symm
  | succ fuel ih =>
      intro idx t m h
      simp only [asgLoop] at h
      by_cases hlt : t < deadline
      · rw [if_pos hlt] at h
        split at h
        · exact ih _ _ _ h
        · exact ih _ _ _ h
        · split at h
          · exact Except.noConfusion h
          · exact ih _ _ _ h
      · rw [if_neg hlt] at h
        injection h with h2
        exact h2.symm

/-- C4: a describe `ClientError` and an empty describe result each cause a
retry after one poll interval and are never raised; once the deadline has
passed the loop fails with the timeout error; and any error the loop ever
surfaces is that timeout message, which names the group and the elapsed
timeout budget in seconds. -/
theorem asg_error_only_timeout (env : AsgEnv)
    (k8sCheck : Nat → Except K8sError K8sResult) (asgName : String) (ctx : ClusterCtx)
    (timeoutSeconds pollInterval deadline : Nat)
    (fuel1 idx1 t1 fuel2 idx2 t2 fuel3 idx3 t3 fuel4 idx4 t4 : Nat) (msg m : String)
    (ht1 : t1 < deadline) (hcl : env.describe idx1 = .clientError msg)
    (ht2 : t2 < deadline) (hemp : env.describe idx2 = .ok [])
    (ht3 : ¬ t3 < deadline)
    (herr : asgLoop env k8sCheck asgName ctx timeoutSeconds pollInterval deadline
      fuel4 idx4 t4 = .error m) :
    asgLoop env k8sCheck asgName ctx timeoutSeconds pollInterval deadline
        (fuel1 + 1) idx1 t1 =
      asgLoop env k8sCheck asgName ctx timeoutSeconds pollInterval deadline
        fuel1 (idx1 + 1) (t1 + pollInterval)
    ∧ asgLoop env k8sCheck asgName ctx timeoutSeconds pollInterval deadline
        (fuel2 + 1) idx2 t2 =
      asgLoop env k8sCheck asgName ctx timeoutSeconds pollInterval deadline
        fuel2 (idx2 + 1) (t2 + pollInterval)
    ∧ asgLoop env k8sCheck asgName ctx timeoutSeconds pollInterval deadline
        (fuel3 + 1) idx3 t3 = .error (asgTimeoutMessage timeoutSeconds asgName)
    ∧ m = asgTimeoutMessage timeoutSeconds asgName := by
  refine ⟨?_, ?_, ?_, asgLoop_error_message env k8sCheck asgName ctx timeoutSeconds
    pollInterval deadline fuel4 idx4 t4 m herr⟩
  · simp only [asgLoop]
    rw [if_pos ht1]
    simp only [hcl]
  · simp only [asgLoop]
    rw [if_pos ht2]
    simp only [hemp]
  · simp only [asgLoop]
    rw [if_neg ht3]

theorem asg_error_only_timeout_witness :
    asgLoop ⟨fun n => if n = 0 then .clientError "boom" else .ok []⟩
        (fun _ => .error (.exception "x")) "workers" ⟨none, none, none, none⟩
        30 10 30 3 0 0 =
      asgLoop ⟨fun n => if n = 0 then .clientError "boom" else .ok []⟩
        (fun _ => .error (.exception "x")) "workers" ⟨none, none, none, none⟩
        30 10 30 2 1 10
    ∧ asgLoop ⟨fun n => if n = 0 then .clientError "boom" else .ok []⟩
        (fun _ => .error (.exception "x")) "workers" ⟨none, none, none, none⟩
        30 10 30 2 1 10 =
      asgLoop ⟨fun n => if n = 0 then .clientError "boom" else .ok []⟩
        (fun _ => .error (.exception "x")) "workers" ⟨none, none, none, none⟩
        30 10 30 1 2 20
    ∧ asgLoop ⟨fun n => if n = 0 then .clientError "boom" else .ok []⟩
        (fun _ => .error (.exception "x")) "workers" ⟨none, none, none, none⟩
        30 10 30 1 3 30 = .error (asgTimeoutMessage 30 "workers")
    ∧ asgTimeoutMessage 30 "workers" = asgTimeoutMessage 30 "workers" :=
  asg_error_only_timeout ⟨fun n => if n = 0 then .clientError "boom" else .ok []⟩
    (fun _ => .error (.exception "x")) "workers" ⟨none, none, none, none⟩
    30 10 30 2 0 0 1 1 10 0 3 30 1 3 30 "boom" (asgTimeoutMessage 30 "workers")
    (by decide) rfl (by decide) rfl (by decide) rfl

theorem countReadyAux (l : List K8sNode) : ∀ acc : Nat,
    l.foldl (fun acc n => if nodeReadyFlag n then acc + 1 else acc) acc =
      acc + (l.filter nodeReadyFlag).length := by
  induction l with
  | nil => intro acc; simp
  | cons n l ih =>
      intro acc
      rw [List.foldl_cons, List.filter_cons]
      by_cases hn : nodeReadyFlag n = true
      · rw [if_pos hn, if_pos hn, ih]
        simp only [List.length_cons]
        omega
      · rw [if_neg hn, if_neg hn, ih]

theorem countReadySrc_eq_filter_length (items : List K8sNode) :
    countReadySrc items = (items.filter nodeReadyFlag).length := by
  simpa [countReadySrc] using countReadyAux items 0

/-- C5: at each iteration whose node-list call (made with label selector
`"NodeGroup=" ++ label`) succeeds, the loop returns
`{node_group := label, ready_nodes, expected_ready_nodes :=
desiredCapacity, status := "ready"}` exactly when `ready_nodes ≥
desiredCapacity`, and retries otherwise; `ready_nodes` counts the listed
nodes that have at least one condition with type `"Ready"` and status
`"True"`, each node contributing at most one to the count. -/
theorem k8s_node_counting (env : K8sEnv) (label : String)
    (desiredCapacity pollInterval kubernetesTimeout deadline fuel idx t : Nat)
    (lastError : Option String) (items : List K8sNode) (nd : K8sNode)
    (ht : t < deadline) (hcred : env.credentials idx = some ())
    (hlist : env.listNodes idx ("NodeGroup=" ++ label) = .nodes items) :
    (k8sLoop env label desiredCapacity pollInterval kubernetesTimeout deadline
        (fuel + 1) lastError idx t =
      if desiredCapacity ≤ countReadySrc items then
        .ok ⟨label, countReadySrc items, desiredCapacity, "ready"⟩
      else
        k8sLoop env label desiredCapacity pollInterval kubernetesTimeout deadline
          fuel lastError (idx + 1) (t + pollInterval))
    ∧ countReadySrc items = (items.filter nodeReadyFlag).length
    ∧ countReadySrc items ≤ items.length
    ∧ (nodeReadyFlag nd = true ↔
        ∃ c ∈ nd.conditions, c.type = "Ready" ∧ c.status = "True") := by
  refine ⟨?_, countReadySrc_eq_filter_length items, ?_, ?_⟩
  · simp only [k8sLoop]
    rw [if_pos ht, hcred]
    simp only [generate_bearer_token]
    rw [hlist]
  · rw [countReadySrc_eq_filter_length]
    exact List.length_filter_le _ _
  · simp [nodeReadyFlag, List.any_eq_true]

theorem k8s_node_counting_witness :
    (k8sLoop ⟨fun _ => some (), fun _ => [],
        fun n s => if s = "NodeGroup=gpu" then
          (if n < 3 then .nodes [⟨[⟨"Ready", "True"⟩]⟩]
           else .nodes [⟨[⟨"Ready", "True"⟩]⟩, ⟨[⟨"Ready", "True"⟩]⟩])
          else .otherError "bad selector", "/tmp/ca"⟩
        "gpu" 2 15 300 300 5 none 3 45 =
      if 2 ≤ countReadySrc [⟨[⟨"Ready", "True"⟩]⟩, ⟨[⟨"Ready", "True"⟩]⟩] then
        .ok ⟨"gpu", countReadySrc [⟨[⟨"Ready", "True"⟩]⟩, ⟨[⟨"Ready", "True"⟩]⟩], 2, "ready"⟩
      else
        k8sLoop ⟨fun _ => some (), fun _ => [],
          fun n s => if s = "NodeGroup=gpu" then
            (if n < 3 then .nodes [⟨[⟨"Ready", "True"⟩]⟩]
             else .nodes [⟨[⟨"Ready", "True"⟩]⟩, ⟨[⟨"Ready", "True"⟩]⟩])
            else .otherError "bad selector", "/tmp/ca"⟩
          "gpu" 2 15 300 300 4 none 4 60)
    ∧ countReadySrc [⟨[⟨"Ready", "True"⟩]⟩, ⟨[⟨"Ready", "True"⟩]⟩] =
      ([⟨[⟨"Ready", "True"⟩]⟩, ⟨[⟨"Ready", "True"⟩]⟩].filter nodeReadyFlag).length
    ∧ countReadySrc [⟨[⟨"Ready", "True"⟩]⟩, ⟨[⟨"Ready", "True"⟩]⟩] ≤
      ([⟨[⟨"Ready", "True"⟩]⟩, ⟨[⟨"Ready", "True"⟩]⟩] : List K8sNode).length
    ∧ (nodeReadyFlag ⟨[⟨"Ready", "True"⟩]⟩ = true ↔
        ∃ c ∈ (⟨[⟨"Ready", "True"⟩]⟩ : K8sNode).conditions,
          c.type = "Ready" ∧ c.status = "True") :=
  k8s_node_counting ⟨fun _ => some (), fun _ => [],
      fun n s => if s = "NodeGroup=gpu" then
        (if n < 3 then .nodes [⟨[⟨"Ready", "True"⟩]⟩]
         else .nodes [⟨[⟨"Ready", "True"⟩]⟩, ⟨[⟨"Ready", "True"⟩]⟩])
        else .otherError "bad selector", "/tmp/ca"⟩
    "gpu" 2 15 300 300 4 3 45 none [⟨[⟨"Ready", "True"⟩]⟩, ⟨[⟨"Ready", "True"⟩]⟩]
    ⟨[⟨"Ready", "True"⟩]⟩ (by decide) rfl rfl

/-- C6: the sub-check's budget is `min(timeoutSeconds, 300)`, never more
than 300 seconds; once its own deadline has passed (and as soon as the
fuel bound is reached) the loop fails with the timeout error carrying the
last observed per-call error; and each failed node-list call (HTTP
`ApiException` or other transport error) updates that last observed error
before sleeping and retrying. -/
theorem k8s_budget_and_timeout (env : K8sEnv) (fs : List String) (label : String)
    (desiredCapacity timeoutSeconds pollInterval startTime : Nat)
    (kubernetesTimeout deadline fuel1 idx1 t1 fuel2 idx2 t2 st fuel3 idx3 t3 : Nat)
    (lastError le2 le3 : Option String) (em : String)
    (ht1 : ¬ t1 < deadline)
    (ht2 : t2 < deadline) (hcred2 : env.credentials idx2 = some ())
    (hapi : env.listNodes idx2 ("NodeGroup=" ++ label) = .apiError st)
    (ht3 : t3 < deadline) (hcred3 : env.credentials idx3 = some ())
    (hoth : env.listNodes idx3 ("NodeGroup=" ++ label) = .otherError em) :
    wait_for_kubernetes_nodes_ready env fs label desiredCapacity timeoutSeconds
        pollInterval startTime =
      (k8sLoop env label desiredCapacity pollInterval (min timeoutSeconds 300)
        (startTime + min timeoutSeconds 300) (min timeoutSeconds 300 + 1) none 0 startTime,
       removeIfExists (fs ++ [env.tmpName]) env.tmpName)
    ∧ min timeoutSeconds 300 ≤ 300
    ∧ k8sLoop env label desiredCapacity pollInterval kubernetesTimeout deadline
        (fuel1 + 1) lastError idx1 t1 =
      .error (.timeout (k8sTimeoutMessage kubernetesTimeout label lastError))
    ∧ k8sLoop env label desiredCapacity pollInterval kubernetesTimeout deadline
        (fuel2 + 1) le2 idx2 t2 =
      k8sLoop env label desiredCapacity pollInterval kubernetesTimeout deadline
        fuel2 (some ("HTTP " ++ toString st)) (idx2 + 1) (t2 + pollInterval)
    ∧ k8sLoop env label desiredCapacity pollInterval kubernetesTimeout deadline
        (fuel3 + 1) le3 idx3 t3 =
      k8sLoop env label desiredCapacity pollInterval kubernetesTimeout deadline
        fuel3 (some em) (idx3 + 1) (t3 + pollInterval) := by
  refine ⟨rfl, Nat.min_le_right _ _, ?_, ?_, ?_⟩
  · simp only [k8sLoop]
    rw [if_neg ht1]
  · simp only [k8sLoop]
    rw [if_pos ht2, hcred2]
    simp only [generate_bearer_token]
    rw [hapi]
  · simp only [k8sLoop]
    rw [if_pos ht3, hcred3]
    simp only [generate_bearer_token]
    rw [hoth]

theorem k8s_budget_and_timeout_witness :
    wait_for_kubernetes_nodes_ready ⟨fun _ => some (), fun _ => [],
        fun n _ => if n = 0 then .apiError 401 else .otherError "conn reset", "/tmp/ca"⟩
        [] "gpu" 2 900 15 0 =
      (k8sLoop ⟨fun _ => some (), fun _ => [],
          fun n _ => if n = 0 then .apiError 401 else .otherError "conn reset", "/tmp/ca"⟩
        "gpu" 2 15 (min 900 300) (0 + min 900 300) (min 900 300 + 1) none 0 0,
       removeIfExists ([] ++ ["/tmp/ca"]) "/tmp/ca")
    ∧ min 900 300 ≤ 300
    ∧ k8sLoop ⟨fun _ => some (), fun _ => [],
          fun n _ => if n = 0 then .apiError 401 else .otherError "conn reset", "/tmp/ca"⟩
        "gpu" 2 15 300 300 1 (some "HTTP 401") 20 300 =
      .error (.timeout (k8sTimeoutMessage 300 "gpu" (some "HTTP 401")))
    ∧ k8sLoop ⟨fun _ => some (), fun _ => [],
          fun n _ => if n = 0 then .apiError 401 else .otherError "conn reset", "/tmp/ca"⟩
        "gpu" 2 15 300 300 2 none 0 0 =
      k8sLoop ⟨fun _ => some (), fun _ => [],
          fun n _ => if n = 0 then .apiError 401 else .otherError "conn reset", "/tmp/ca"⟩
        "gpu" 2 15 300 300 1 (some ("HTTP " ++ toString 401)) (0 + 1) (0 + 15)
    ∧ k8sLoop ⟨fun _ => some (), fun _ => [],
          fun n _ => if n = 0 then .apiError 401 else .otherError "conn reset", "/tmp/ca"⟩
        "gpu" 2 15 300 300 2 (some "HTTP 401") 1 15 =
      k8sLoop ⟨fun _ => some (), fun _ => [],
          fun n _ => if n = 0 then .apiError 401 else .otherError "conn reset", "/tmp/ca"⟩
        "gpu" 2 15 300 300 1 (some "conn reset") (1 + 1) (15 + 15) :=
  k8s_budget_and_timeout ⟨fun _ => some (), fun _ => [],
      fun n _ => if n = 0 then .apiError 401 else .otherError "conn reset", "/tmp/ca"⟩
    [] "gpu" 2 900 15 0 300 300 0 20 300 1 0 0 401 1 1 15
    (some "HTTP 401") none (some "HTTP 401") "conn reset"
    (by decide) (by decide) rfl rfl (by decide) rfl rfl

theorem list_all_congr (l : List String) (f g : String → Bool)
    (h : ∀ n ∈ l, f n = g n) : l.all f = l.all g := by
  induction l with
  | nil => rfl
  | cons a l ih =>
      rw [List.all_cons, List.all_cons, h a (List.mem_cons_self a l),
        ih (fun n hn => h n (List.mem_cons_of_mem a hn))]

theorem await_deps_subset (dryRun : Bool) (cfg : List (String × NodeGroupConfig))
    (checks : List String) (deps : List String) (v : Bool)
    (h : await_node_groups_ready dryRun cfg checks = .afterAll deps v) :
    ∀ n ∈ deps, n ∈ awaitedGroups cfg := by
  unfold await_node_groups_ready at h
  split at h
  · exact AggOutput.noConfusion h
  · split at h
    · exact AggOutput.noConfusion h
    · split at h
      · exact AggOutput.noConfusion h
      · injection h with hdeps hv
        subst hdeps
        intro n hn
        exact List.mem_of_mem_filter hn

theorem await_immediate_true (dryRun : Bool) (cfg : List (String × NodeGroupConfig))
    (checks : List String) (v : Bool)
    (h : await_node_groups_ready dryRun cfg checks = .immediate v) : v = true := by
  unfold await_node_groups_ready at h
  split at h
  · injection h with hv
    exact hv.symm
  · split at h
    · injection h with hv
      exact hv.symm
    · split at h
      · injection h with hv
        exact hv.symm
      · exact AggOutput.noConfusion h

theorem await_value_true (dryRun : Bool) (cfg : List (String × NodeGroupConfig))
    (checks : List String) :
    (∀ v, await_node_groups_ready dryRun cfg checks = .immediate v → v = true) ∧
    (∀ deps v, await_node_groups_ready dryRun cfg checks = .afterAll deps v → v = true) := by
  constructor
  · intro v h
    exact await_immediate_true dryRun cfg checks v h
  · intro deps v h
    unfold await_node_groups_ready at h
    split at h
    · exact AggOutput.noConfusion h
    · split at h
      · exact AggOutput.noConfusion h
      · split at h
        · exact AggOutput.noConfusion h
        · injection h with hdeps hv
          exact hv.symm

/-- C7: the aggregate resolves to true once every opted-in group's ready
signal is resolved; with no opted-in group, or in dry-run mode, it is
immediately `true` without waiting on any controller; and its resolution
depends only on the opted-in subset — two worlds agreeing on the opted-in
groups resolve it identically, so a non-opted-in group's state is
irrelevant. -/
theorem aggregate_awaits_opted_in (dryRunA dryRunD : Bool)
    (cfgA cfgB cfgC cfgD : List (String × NodeGroupConfig))
    (checksA checksB checksC checksD : List String) (f g r : String → Bool)
    (hA : awaitedGroups cfgA = [])
    (hfg : ∀ n ∈ awaitedGroups cfgC, f n = g n)
    (hr : ∀ n ∈ awaitedGroups cfgD, r n = true) :
    await_node_groups_ready dryRunA cfgA checksA = .immediate true
    ∧ await_node_groups_ready true cfgB checksB = .immediate true
    ∧ resolvesTo (await_node_groups_ready false cfgC checksC) f =
      resolvesTo (await_node_groups_ready false cfgC checksC) g
    ∧ resolvesTo (await_node_groups_ready dryRunD cfgD checksD) r = some true := by
  refine ⟨?_, ?_, ?_, ?_⟩
  · unfold await_node_groups_ready
    rw [hA]
    rfl
  · unfold await_node_groups_ready
    by_cases h : (awaitedGroups cfgB).isEmpty
    · simp [h]
    · simp [h]
  · cases ho : await_node_groups_ready false cfgC checksC with
    | immediate v => rfl
    | afterAll deps v =>
        simp only [resolvesTo]
        rw [list_all_congr deps f g
          (fun n hn => hfg n (await_deps_subset false cfgC checksC deps v ho n hn))]
  · cases ho : await_node_groups_ready dryRunD cfgD checksD with
    | immediate v =>
        have hv := (await_value_true dryRunD cfgD checksD).1 v ho
        subst hv
        rfl
    | afterAll deps v =>
        have hv := (await_value_true dryRunD cfgD checksD).2 deps v ho
        subst hv
        have hall : deps.all r = true := by
          rw [List.all_eq_true]
          intro n hn
          exact hr n (await_deps_subset dryRunD cfgD checksD deps true ho n hn)
        simp [resolvesTo, hall]

theorem aggregate_awaits_opted_in_witness :
    await_node_groups_ready false [("b", ⟨false⟩)] [] = .immediate true
    ∧ await_node_groups_ready true [("a", ⟨true⟩)] ["a"] = .immediate true
    ∧ resolvesTo (await_node_groups_ready false [("a", ⟨true⟩), ("b", ⟨false⟩)] ["a", "b"])
        (fun n => n == "a") =
      resolvesTo (await_node_groups_ready false [("a", ⟨true⟩), ("b", ⟨false⟩)] ["a", "b"])
        (fun n => n != "b")
    ∧ resolvesTo (await_node_groups_ready false [("a", ⟨true⟩), ("b", ⟨false⟩)] ["a", "b"])
        (fun n => n == "a") = some true :=
  aggregate_awaits_opted_in false false [("b", ⟨false⟩)] [("a", ⟨true⟩)]
    [("a", ⟨true⟩), ("b", ⟨false⟩)] [("a", ⟨true⟩), ("b", ⟨false⟩)]
    [] ["a"] ["a", "b"] ["a", "b"] (fun n => n == "a") (fun n => n != "b")
    (fun n => n == "a") (by decide) (by decide) (by decide)

/-- C8: in dry-run mode `_wait_for_asg_ready` returns the zero-valued
record (`desired_capacity = 0`, `healthy_instances = 0`, no Kubernetes
field) for any input, and its result is independent of the cloud and
Kubernetes environments (no API is consulted); `await_node_groups_ready`
likewise is immediately `true` for any input in dry-run mode. -/
theorem dry_run_short_circuit (env env' : AsgEnv)
    (k8sCheck k8sCheck' : Nat → Except K8sError K8sResult) (asgName : String)
    (ctx ctx' : ClusterCtx) (timeoutSeconds pollInterval startTime : Nat)
    (cfg : List (String × NodeGroupConfig)) (checks : List String) :
    wait_for_asg_ready true env k8sCheck asgName ctx timeoutSeconds pollInterval startTime =
      .ok ⟨asgName, 0, 0, none⟩
    ∧ wait_for_asg_ready true env k8sCheck asgName ctx timeoutSeconds pollInterval startTime =
      wait_for_asg_ready true env' k8sCheck' asgName ctx' timeoutSeconds pollInterval startTime
    ∧ await_node_groups_ready true cfg checks = .immediate true := by
  refine ⟨rfl, rfl, ?_⟩
  unfold await_node_groups_ready
  by_cases h : (awaitedGroups cfg).isEmpty
  · simp [h]
  · simp [h]

/-- C9: the temporary CA-certificate file written at the entry of
`_wait_for_kubernetes_nodes_ready` is deleted by the `finally` block on
every exit path — whatever the loop's outcome, the final file system no
longer contains the CA path and equals the initial file system. -/
theorem ca_file_cleanup (env : K8sEnv) (fs : List String) (label : String)
    (desiredCapacity timeoutSeconds pollInterval startTime : Nat)
    (hne : env.tmpName ≠ "") (hfresh : env.tmpName ∉ fs) :
    (wait_for_kubernetes_nodes_ready env fs label desiredCapacity timeoutSeconds
        pollInterval startTime).2 = fs
    ∧ env.tmpName ∉ (wait_for_kubernetes_nodes_ready env fs label desiredCapacity
        timeoutSeconds pollInterval startTime).2 := by
  have h2 : (wait_for_kubernetes_nodes_ready env fs label desiredCapacity timeoutSeconds
      pollInterval startTime).2 = removeIfExists (fs ++ [env.tmpName]) env.tmpName := rfl
  have hrem : removeIfExists (fs ++ [env.tmpName]) env.tmpName = fs := by
    unfold removeIfExists
    rw [if_pos ⟨hne, by simp⟩, List.erase_append_right _ hfresh]
    simp
  rw [h2, hrem]
  exact ⟨rfl, hfresh⟩

theorem ca_file_cleanup_witness :
    (wait_for_kubernetes_nodes_ready
        ⟨fun _ => some (), fun _ => [], fun _ _ => .nodes [], "/tmp/ca123"⟩
        ["/etc/hosts"] "gpu" 0 900 15 0).2 = ["/etc/hosts"]
    ∧ "/tmp/ca123" ∉ (wait_for_kubernetes_nodes_ready
        ⟨fun _ => some (), fun _ => [], fun _ _ => .nodes [], "/tmp/ca123"⟩
        ["/etc/hosts"] "gpu" 0 900 15 0).2 :=
  ca_file_cleanup ⟨fun _ => some (), fun _ => [], fun _ _ => .nodes [], "/tmp/ca123"⟩
    ["/etc/hosts"] "gpu" 0 900 15 0 (by decide) (by decide)

/-- C10: a controller's ready signal, whenever it resolves, resolves to
`true` (it maps any details record to the constant `true`), and the
aggregate of `await_node_groups_ready`, whenever it resolves, also
resolves to `true`: readiness failure can only surface as an error, never
as a `false` value. -/
theorem ready_signal_always_true (details : Option AsgResult) (b1 b2 : Bool)
    (dryRun : Bool) (cfg : List (String × NodeGroupConfig)) (checks : List String)
    (r : String → Bool)
    (h1 : controllerReady details = some b1)
    (h2 : resolvesTo (await_node_groups_ready dryRun cfg checks) r = some b2) :
    b1 = true ∧ b2 = true := by
  constructor
  · cases details with
    | none => exact Option.noConfusion h1
    | some d =>
        injection h1 with hb
        exact hb.symm
  · cases ho : await_node_groups_ready dryRun cfg checks with
    | immediate v =>
        rw [ho] at h2
        simp only [resolvesTo] at h2
        injection h2 with hb
        subst hb
        exact (await_value_true dryRun cfg checks).1 v ho
    | afterAll deps v =>
        rw [ho] at h2
        simp only [resolvesTo] at h2
        split at h2
        · injection h2 with hb
          subst hb
          exact (await_value_true dryRun cfg checks).2 deps v ho
        · exact Option.noConfusion h2

theorem ready_signal_always_true_witness :
    true = true ∧ true = true :=
  ready_signal_always_true (some ⟨"asg", 0, 0, none⟩) true true
    false [("a", ⟨true⟩)] ["a"] (fun _ => true) rfl rfl
